import Mathlib

/-!
Verification of CyberNetMon's monitoring engine (src/monitor.py).

The Python code is shallowly embedded: external effects (the geolocation
HTTP provider, psutil process and connection enumeration, the wall clock)
are passed in as explicit oracles, and the mutable object state (the
`geo_cache` dictionary, the `monitoring` flag, the worker thread) is
threaded through an explicit `MonState` record.

The address classifier embeds CPython's `ipaddress.ip_address` string
parsing (IPv4 dotted quad and IPv6, including '::' compression, an
embedded IPv4 tail and a '%scope' suffix) together with the
`is_private` / `is_loopback` / `is_link_local` network constants of
CPython 3.11.
-/

/-- Groups obtained by splitting at every occurrence of `sep`, mirroring
Python's `str.split(sep)` on a list of characters (the empty input yields
one empty group). -/
def splitOnChar (sep : Char) : List Char → List (List Char)
  | [] => [[]]
  | c :: cs =>
    let r := splitOnChar sep cs
    if c = sep then [] :: r
    else
      match r with
      | g :: gs => (c :: g) :: gs
      | [] => [[c]]

/-- Embeds `ipaddress._parse_octet`: an IPv4 octet is a nonempty string of
at most three ASCII digits, without a leading zero, of value at most 255. -/
def parse_octet (cs : List Char) : Option Nat :=
  if cs.isEmpty then none
  else if !(cs.all Char.isDigit) then none
  else if cs.length > 3 then none
  else if cs.length > 1 && cs.headD ' ' == '0' then none
  else
    let n := cs.foldl (fun a c => a * 10 + (c.toNat - 48)) 0
    if n > 255 then none else some n

/-- Embeds `ipaddress.IPv4Address._ip_int_from_string`: exactly four
dot-separated octets. -/
def parse_ipv4 (cs : List Char) : Option Nat :=
  match splitOnChar '.' cs with
  | [a, b, c, d] => do
    let a ← parse_octet a
    let b ← parse_octet b
    let c ← parse_octet c
    let d ← parse_octet d
    pure (((a * 256 + b) * 256 + c) * 256 + d)
  | _ => none

/-- Value of one hexadecimal digit, `none` on any other character. -/
def hexDigitVal (c : Char) : Option Nat :=
  if c.isDigit then some (c.toNat - 48)
  else if 'a' ≤ c && c ≤ 'f' then some (c.toNat - 87)
  else if 'A' ≤ c && c ≤ 'F' then some (c.toNat - 55)
  else none

/-- Embeds `ipaddress._parse_hextet`: a nonempty group of at most four hex
digits. -/
def parse_hextet (cs : List Char) : Option Nat :=
  if cs.isEmpty || cs.length > 4 then none
  else (cs.mapM hexDigitVal).map (fun ds => ds.foldl (fun a d => a * 16 + d) 0)

/-- Classification of one colon-separated group of an IPv6 literal:
empty, a valid hextet, or invalid. -/
inductive PTok where
  | emp
  | val (n : Nat)
  | bad
deriving DecidableEq, Repr

/-- Tokenize one colon-separated group. -/
def partTok (cs : List Char) : PTok :=
  if cs.isEmpty then .emp
  else
    match parse_hextet cs with
    | some v => .val v
    | none => .bad

/-- Value of a token that is a valid hextet. -/
def tokVal : PTok → Option Nat
  | .val n => some n
  | _ => none

/-- Fold sixteen-bit groups into one integer, most significant first. -/
def combineHextets (vs : List Nat) : Nat :=
  vs.foldl (fun a v => a * 65536 + v) 0

/-- Split a literal at the first percent sign, mirroring
`str.partition` as used by `IPv6Address._split_scope_id`. -/
def scopeSplit : List Char → List Char × Option (List Char)
  | [] => ([], none)
  | c :: cs =>
    if c = '%' then ([], some cs)
    else
      let r := scopeSplit cs
      (c :: r.1, r.2)

/-- Core of `IPv6Address._ip_int_from_string` after tokenization: locate
the single '::' compression among the middle groups, validate leading and
trailing colons, and assemble the 128-bit value. -/
def parse_ipv6_toks (toks : List PTok) : Option Nat :=
  if toks.length > 9 then none
  else
    let n := toks.length
    let empties := (List.range n).filter
      (fun i => (i != 0) && decide (i + 1 < n) && (toks.getD i .bad == PTok.emp))
    match empties with
    | [] =>
      if n != 8 then none
      else if toks.headD .bad == PTok.emp then none
      else if toks.getLastD .bad == PTok.emp then none
      else (toks.mapM tokVal).map combineHextets
    | [k] =>
      let hi0 := k
      let lo0 := n - k - 1
      let hiOpt : Option Nat :=
        if toks.headD .bad == PTok.emp then
          (if hi0 == 1 then some 0 else none)
        else some hi0
      let loOpt : Option Nat :=
        if toks.getLastD .bad == PTok.emp then
          (if lo0 == 1 then some 0 else none)
        else some lo0
      match hiOpt, loOpt with
      | some hi, some lo =>
        if 8 ≤ hi + lo then none
        else do
          let hiVals ← (toks.take hi).mapM tokVal
          let loVals ← (toks.drop (n - lo)).mapM tokVal
          let skipped := 8 - hi - lo
          pure (combineHextets hiVals * 2 ^ (16 * (skipped + lo)) +
            combineHextets loVals)
      | _, _ => none
    | _ => none

/-- Embeds `ipaddress.IPv6Address` string parsing: optional '%scope'
suffix, at least two colons, optional embedded IPv4 tail converted to two
hextets, then the '::' analysis of `parse_ipv6_toks`. -/
def parse_ipv6 (cs : List Char) : Option Nat :=
  let sp := scopeSplit cs
  let scopeOk :=
    match sp.2 with
    | some sc => !sc.isEmpty && !sc.contains '%'
    | none => true
  if !scopeOk then none
  else
    let parts := splitOnChar ':' sp.1
    if parts.length < 3 then none
    else
      let lastPart := parts.getLastD []
      let toksOpt : Option (List PTok) :=
        if lastPart.contains '.' then
          match parse_ipv4 lastPart with
          | some v4 =>
            some (parts.dropLast.map partTok ++ [.val (v4 / 65536), .val (v4 % 65536)])
          | none => none
        else some (parts.map partTok)
      match toksOpt with
      | none => none
      | some toks => parse_ipv6_toks toks

/-- Parsed IP address: the 32-bit or 128-bit integer value. -/
inductive IPAddr where
  | v4 (n : Nat)
  | v6 (n : Nat)
deriving DecidableEq, Repr

/-- Embeds `ipaddress.ip_address(str)`: IPv4 is tried first, then IPv6,
and `none` stands for the `ValueError` on unparseable input. -/
def ip_address (s : String) : Option IPAddr :=
  match parse_ipv4 s.toList with
  | some n => some (.v4 n)
  | none =>
    match parse_ipv6 s.toList with
    | some n => some (.v6 n)
    | none => none

/-- Embeds the `is_private` property with CPython 3.11's
`_private_networks` constants for both address families. -/
def IPAddr.is_private : IPAddr → Bool
  | .v4 n =>
    n / 2 ^ 24 == 0 || n / 2 ^ 24 == 10 || n / 2 ^ 24 == 127 ||
    n / 2 ^ 16 == 43518 || n / 2 ^ 20 == 2753 ||
    n / 2 ^ 3 == 0x18000000 || n / 2 == 0x60000055 ||
    n / 2 ^ 8 == 0xC00002 || n / 2 ^ 16 == 0xC0A8 ||
    n / 2 ^ 17 == 0x6309 || n / 2 ^ 8 == 0xC63364 ||
    n / 2 ^ 8 == 0xCB0071 || n / 2 ^ 28 == 15 || n == 0xFFFFFFFF
  | .v6 n =>
    n == 1 || n == 0 || n / 2 ^ 32 == 0xFFFF ||
    n / 2 ^ 64 == 0x0100000000000000 ||
    n / 2 ^ 105 == 0x2001 * 128 || n / 2 ^ 80 == 0x200100020000 ||
    n / 2 ^ 96 == 0x20010DB8 || n / 2 ^ 100 == 0x2001001 ||
    n / 2 ^ 121 == 0x7E || n / 2 ^ 118 == 0x3FA

/-- Embeds the `is_loopback` property (127.0.0.0/8, ::1). -/
def IPAddr.is_loopback : IPAddr → Bool
  | .v4 n => n / 2 ^ 24 == 127
  | .v6 n => n == 1

/-- Embeds the `is_link_local` property (169.254.0.0/16, fe80::/10). -/
def IPAddr.is_link_local : IPAddr → Bool
  | .v4 n => n / 2 ^ 16 == 43518
  | .v6 n => n / 2 ^ 118 == 0x3FA

/-- Embeds `NetworkMonitor.is_private_ip` (src/monitor.py lines 52-58):
private, loopback or link-local, and unparseable input falls to `True`
through the `ValueError` branch. -/
def is_private_ip (ip : String) : Bool :=
  match ip_address ip with
  | some a => a.is_private || a.is_loopback || a.is_link_local
  | none => true

example : is_private_ip "192.168.1.1" = true := by decide
example : is_private_ip "8.8.8.8" = false := by decide
example : is_private_ip "not an ip" = true := by decide
example : is_private_ip "127.0.0.1" = true := by decide
example : is_private_ip "169.254.3.4" = true := by decide
example : is_private_ip "::1" = true := by decide
example : is_private_ip "2001:db8::1" = true := by decide
example : is_private_ip "2main" = true := by decide
example : is_private_ip "2607:f8b0:4004:c07::6a" = false := by decide
example : is_private_ip "fe80::1%eth0" = true := by decide
example : is_private_ip "::ffff:8.8.8.8" = true := by decide
example : is_private_ip "10.0.0.7" = true := by decide
example : is_private_ip "172.16.0.1" = true := by decide
example : is_private_ip "172.32.0.1" = false := by decide
example : is_private_ip "1.1.1.1" = false := by decide
example : is_private_ip "01.1.1.1" = true := by decide
example : is_private_ip "256.1.1.1" = true := by decide

/-- Embeds the geolocation dictionary built by
`NetworkMonitor.get_geolocation` and `Connection.geo_data`: country,
city, organization and flag glyph. -/
structure GeoData where
  country : String
  city : String
  org : String
  flag : String
deriving DecidableEq, Repr

/-- Embeds the parsed JSON body of a successful ipapi.co response, with
each key optionally present (Python `dict.get` with a default). -/
structure ApiData where
  country_name : Option String
  city : Option String
  org : Option String
  country_code : Option String
deriving DecidableEq, Repr

/-- Outcome of one `requests.get` call against the provider: an HTTP
response with a status code and an optionally well-formed JSON body
(`none` models a body on which `response.json()` raises), or a
`requests.RequestException` (timeout, transport error). -/
inductive ProviderResult where
  | response (status : Nat) (body : Option ApiData)
  | exn
deriving DecidableEq, Repr

/-- Embeds `psutil.Process(pid).name()`: a name, or one of the two
exception classes caught by `Connection._get_process_name`. -/
inductive PsResult where
  | ok (name : String)
  | noSuchProcess
  | accessDenied
deriving DecidableEq, Repr

/-- Wall-clock instant, the fields of a `datetime` value at second
resolution. -/
structure DateTime where
  year : Nat
  month : Nat
  day : Nat
  hour : Nat
  minute : Nat
  second : Nat
deriving DecidableEq, Repr

/-- Mutable state of a `NetworkMonitor` object, threaded explicitly:
the `geo_cache` dictionary (newest binding first, lookup takes the first
match, as for a Python dict), the `monitoring` flag and the
`monitor_thread` reference, plus two observation logs that record the
side effects the Python code performs: `calls` lists every provider
invocation (one entry per `requests.get`, newest last) and `warnings`
lists every diagnostic printed. `active` models which spawned monitor
threads are still running their loop, and `next_id` names the next
thread to be spawned. -/
structure MonState where
  geo_cache : List (String × GeoData)
  monitoring : Bool
  monitor_thread : Option Nat
  active : List Nat
  next_id : Nat
  calls : List String
  warnings : List String
deriving DecidableEq, Repr

/-- State of a freshly constructed `NetworkMonitor`. -/
def initState : MonState :=
  { geo_cache := [], monitoring := false, monitor_thread := none,
    active := [], next_id := 0, calls := [], warnings := [] }

/-- Embeds `NetworkMonitor._get_country_flag` (src/monitor.py lines
99-107): empty or non-two-character codes give the globe glyph, and each
of the two characters is uppercased and shifted onto the regional
indicator block. -/
def get_country_flag (cc : String) : String :=
  if cc = "" || cc.length != 2 then "🌍"
  else String.mk (cc.toList.map (fun c => Char.ofNat (c.toUpper.toNat + 0x1F1E6 - 65)))

/-- The fixed "Local" record cached for non-public addresses
(src/monitor.py lines 66-71). -/
def localGeo : GeoData :=
  { country := "Local", city := "Local", org := "Local Network", flag := "🏠" }

/-- The negative-cache sentinel built after a failed lookup
(src/monitor.py lines 90-95). -/
def unknownGeo : GeoData :=
  { country := "Unknown", city := "Unknown", org := "Unknown ISP", flag := "❓" }

/-- GeoData assembled from a successful provider response
(src/monitor.py lines 79-84). -/
def geoFromApi (d : ApiData) : GeoData :=
  { country := d.country_name.getD "Unknown",
    city := d.city.getD "Unknown",
    org := d.org.getD "Unknown ISP",
    flag := get_country_flag (d.country_code.getD "") }

/-- Embeds `NetworkMonitor.get_geolocation` (src/monitor.py lines
60-97): cache hit returns the stored value unchanged; non-public
addresses are answered with the Local sentinel without any provider
call; otherwise one provider call is logged and either the parsed
response or the Unknown sentinel is cached and returned. A 200 response
with an unparseable body raises inside the `try` and is caught by the
same `except` as a transport error, landing in the sentinel branch. -/
def get_geolocation (provider : String → ProviderResult) (s : MonState)
    (ip : String) : GeoData × MonState :=
  match s.geo_cache.lookup ip with
  | some g => (g, s)
  | none =>
    if is_private_ip ip then
      (localGeo, { s with geo_cache := (ip, localGeo) :: s.geo_cache })
    else
      let s1 := { s with calls := s.calls ++ [ip] }
      match provider ip with
      | .response st body =>
        if st == 200 then
          match body with
          | some d =>
            let g := geoFromApi d
            (g, { s1 with geo_cache := (ip, g) :: s1.geo_cache })
          | none =>
            (unknownGeo, { s1 with geo_cache := (ip, unknownGeo) :: s1.geo_cache })
        else
          (unknownGeo, { s1 with geo_cache := (ip, unknownGeo) :: s1.geo_cache })
      | .exn =>
        (unknownGeo, { s1 with geo_cache := (ip, unknownGeo) :: s1.geo_cache })

/-- Embeds `NetworkMonitor.clear_cache` (src/monitor.py lines 173-175). -/
def clear_cache (s : MonState) : MonState :=
  { s with geo_cache := [] }

/-- A provider outcome on which src/monitor.py lines 75-88 do not build a
positive result: a transport exception, a non-200 status, or a malformed
body. -/
def provider_fails : ProviderResult → Bool
  | .exn => true
  | .response st body => st != 200 || body.isNone

example :
    (get_geolocation (fun _ => .exn) initState "8.8.8.8").1 = unknownGeo := by
  decide

example :
    (get_geolocation (fun _ => .response 200 (some ⟨some "Australia", none, some "Cloudflare", some "AU"⟩))
      initState "1.1.1.1").1 =
      { country := "Australia", city := "Unknown", org := "Cloudflare", flag := "🇦🇺" } := by
  decide

example :
    (get_geolocation (fun _ => .exn) initState "192.168.0.3").1 = localGeo := by
  decide

/-- Socket type of a psutil connection tuple (`socket.SOCK_STREAM` or
`socket.SOCK_DGRAM`). -/
inductive SockType where
  | sockStream
  | sockDgram
deriving DecidableEq, Repr

/-- An endpoint tuple `addr(ip=..., port=...)` of psutil. -/
structure Addr where
  ip : String
  port : Nat
deriving DecidableEq, Repr

/-- One element of `psutil.net_connections(kind='inet')`: pid may be
absent, `laddr`/`raddr` may be the empty tuple (`none`), and `status` is
read defensively through `getattr` with an `Unknown` default. -/
structure ConnInfo where
  pid : Option Nat
  type : SockType
  laddr : Option Addr
  raddr : Option Addr
  status : Option String
deriving DecidableEq, Repr

/-- Embeds `Connection._get_process_name` (src/monitor.py lines 23-31):
Python's `if not pid` covers both `None` and `0`, giving "System";
a lookup ending in `NoSuchProcess` or `AccessDenied` gives "Unknown";
otherwise the OS-reported name is returned. -/
def get_process_name (lookup : Nat → PsResult) (pid : Option Nat) : String :=
  match pid with
  | none => "System"
  | some p =>
    if p == 0 then "System"
    else
      match lookup p with
      | .ok name => name
      | .noSuchProcess => "Unknown"
      | .accessDenied => "Unknown"

/-- Embeds `Connection._format_address` (src/monitor.py lines 33-37). -/
def format_address : Option Addr → String
  | some a => a.ip ++ ":" ++ toString a.port
  | none => ""

/-- One fully built `Connection` object (src/monitor.py lines 10-21).
The `pid` field is the Python attribute `conn_info.pid if conn_info.pid
else "N/A"`, so it is either a positive integer or the string "N/A". -/
inductive PidField where
  | num (n : Nat)
  | na
deriving DecidableEq, Repr

/-- Embeds the `Connection` record. -/
structure Conn where
  timestamp : DateTime
  process_name : String
  pid : PidField
  protocol : String
  local_address : String
  remote_address : String
  remote_ip : String
  status : String
  geo_data : Option GeoData
deriving DecidableEq, Repr

/-- Outcome of `psutil.net_connections(kind='inet')`: the enumerated
list, a `psutil.AccessDenied`, or any other exception caught by the
generic handler. -/
inductive EnumResult where
  | ok (l : List ConnInfo)
  | accessDenied
  | otherError (msg : String)
deriving DecidableEq, Repr

/-- External world seen by a `NetworkMonitor`: the OS connection table,
the geolocation provider, the OS process table and the wall clock. -/
structure MonEnv where
  net_connections : EnumResult
  provider : String → ProviderResult
  proc_lookup : Nat → PsResult
  now : DateTime

/-- Embeds `Connection.__init__` (src/monitor.py lines 12-21): the
timestamp is the capture instant, `pid` keeps the raw value unless it is
falsy, protocol is TCP exactly for `SOCK_STREAM`, addresses are
formatted, `remote_ip` is the raw remote ip or the empty string, and
`geo_data` starts out `None`. -/
def mkConnection (env : MonEnv) (ci : ConnInfo) : Conn :=
  { timestamp := env.now
    process_name := get_process_name env.proc_lookup ci.pid
    pid :=
      match ci.pid with
      | some p => if p == 0 then .na else .num p
      | none => .na
    protocol := if ci.type = .sockStream then "TCP" else "UDP"
    local_address := format_address ci.laddr
    remote_address := format_address ci.raddr
    remote_ip :=
      match ci.raddr with
      | some a => a.ip
      | none => ""
    status := ci.status.getD "Unknown"
    geo_data := none }

/-- Loop body of `get_active_connections` (src/monitor.py lines
113-118): keep exactly the entries with a present remote endpoint whose
remote ip is not private, build the `Connection`, and attach the
geolocation of its `remote_ip`, threading the cache state left to
right. -/
def build_connections (env : MonEnv) : List ConnInfo → MonState → List Conn × MonState
  | [], s => ([], s)
  | ci :: rest, s =>
    match ci.raddr with
    | none => build_connections env rest s
    | some a =>
      if is_private_ip a.ip then build_connections env rest s
      else
        let c0 := mkConnection env ci
        let gs := get_geolocation env.provider s c0.remote_ip
        let cs := build_connections env rest gs.2
        ({ c0 with geo_data := some gs.1 } :: cs.1, cs.2)

/-- Embeds `NetworkMonitor.get_active_connections` (src/monitor.py lines
109-125): `psutil.AccessDenied` and any other exception at the
enumeration yield the empty list and a printed diagnostic instead of
propagating. -/
def get_active_connections (env : MonEnv) (s : MonState) : List Conn × MonState :=
  match env.net_connections with
  | .ok l => build_connections env l s
  | .accessDenied =>
    ([], { s with warnings :=
      s.warnings ++ ["Access denied. Run as administrator for full functionality."] })
  | .otherError msg =>
    ([], { s with warnings := s.warnings ++ ["Error getting connections: " ++ msg] })

/-- Embeds `NetworkMonitor.start_monitoring` (src/monitor.py lines
127-138): an early return when already monitoring, otherwise the flag is
set and one fresh daemon thread running `_monitor_loop` is spawned. -/
def start_monitoring (s : MonState) : MonState :=
  if s.monitoring then s
  else
    { s with
      monitoring := true
      monitor_thread := some s.next_id
      active := s.active ++ [s.next_id]
      next_id := s.next_id + 1 }

/-- Embeds `NetworkMonitor.stop_monitoring` (src/monitor.py lines
140-144): the flag is cleared and the thread is joined; because
`_monitor_loop` re-checks `self.monitoring` at every iteration, every
spawned loop terminates once the flag is down, so at quiescence no
monitor task remains active. -/
def stop_monitoring (s : MonState) : MonState :=
  { s with monitoring := false, active := [] }

/-- Embeds `NetworkMonitor._monitor_loop` (src/monitor.py lines
146-156) with explicit fuel bounding the number of observed iterations:
while the flag is up, each cycle takes a snapshot and delivers it to the
callback (the delivered snapshots are collected in order). -/
def monitor_loop (env : MonEnv) : Nat → MonState → List (List Conn) × MonState
  | 0, s => ([], s)
  | fuel + 1, s =>
    if s.monitoring then
      let cs := get_active_connections env s
      let rest := monitor_loop env fuel cs.2
      (cs.1 :: rest.1, rest.2)
    else ([], s)

/-- Counters returned by `get_connection_stats`. -/
structure Stats where
  total : Nat
  tcp : Nat
  udp : Nat
  established : Nat
  unique_ips : Nat
  unique_countries : Nat
deriving DecidableEq, Repr

/-- Aggregation step of `NetworkMonitor.get_connection_stats`
(src/monitor.py lines 162-169) over a given snapshot; `len(set(...))`
is the number of distinct elements. -/
def stats_of (cs : List Conn) : Stats :=
  { total := cs.length
    tcp := (cs.filter (fun c => c.protocol == "TCP")).length
    udp := (cs.filter (fun c => c.protocol == "UDP")).length
    established := (cs.filter (fun c => c.status == "ESTABLISHED")).length
    unique_ips := (cs.map (fun c => c.remote_ip)).dedup.length
    unique_countries :=
      ((cs.filterMap (fun c => c.geo_data)).map (fun g => g.country)).dedup.length }

/-- Embeds `NetworkMonitor.get_connection_stats` (src/monitor.py lines
158-171): a fresh snapshot is taken and aggregated. -/
def get_connection_stats (env : MonEnv) (s : MonState) : Stats × MonState :=
  let cs := get_active_connections env s
  (stats_of cs.1, cs.2)

/-- Modelled from the spec and `datetime.strftime`: a calendar field
rendered as two zero-padded decimal digits, as `%m %d %H %M %S` produce
for every calendar-valid value. -/
def pad2 (n : Nat) : String :=
  String.mk [Nat.digitChar (n / 10 % 10), Nat.digitChar (n % 10)]

/-- Modelled from the spec and `datetime.strftime`: the year rendered as
four decimal digits, as `%Y` produces for every year of a real
`datetime.now()` value. -/
def pad4 (n : Nat) : String :=
  String.mk [Nat.digitChar (n / 1000 % 10), Nat.digitChar (n / 100 % 10),
    Nat.digitChar (n / 10 % 10), Nat.digitChar (n % 10)]

/-- Embeds `datetime.isoformat()` at second resolution. -/
def isoformat (t : DateTime) : String :=
  pad4 t.year ++ "-" ++ pad2 t.month ++ "-" ++ pad2 t.day ++ "T" ++
    pad2 t.hour ++ ":" ++ pad2 t.minute ++ ":" ++ pad2 t.second

/-- Embeds the default filename expression
`f"connections_{datetime.now().strftime('%Y%m%d_%H%M%S')}.json"`
(src/monitor.py line 180). -/
def default_filename (t : DateTime) : String :=
  "connections_" ++ pad4 t.year ++ pad2 t.month ++ pad2 t.day ++ "_" ++
    pad2 t.hour ++ pad2 t.minute ++ pad2 t.second ++ ".json"

/-- Filename chosen by `export_connections` (src/monitor.py lines
179-180): Python's `if not filename` treats both `None` and the empty
string as absent. -/
def export_filename (given : Option String) (t : DateTime) : String :=
  match given with
  | some f => if f == "" then default_filename t else f
  | none => default_filename t

/-- A JSON scalar as written by `json.dump` for this document: every
value is a string except the numeric `pid`. -/
inductive JVal where
  | str (s : String)
  | num (n : Nat)
deriving DecidableEq, Repr

/-- One element of the exported array (src/monitor.py lines 186-197):
an object with ten fixed keys in source order; country, city and isp
fall back to "Unknown" when `geo_data` is `None`. -/
def export_entry (c : Conn) : List (String × JVal) :=
  [("timestamp", .str (isoformat c.timestamp)),
   ("process", .str c.process_name),
   ("pid",
     match c.pid with
     | .num n => .num n
     | .na => .str "N/A"),
   ("protocol", .str c.protocol),
   ("local_address", .str c.local_address),
   ("remote_address", .str c.remote_address),
   ("status", .str c.status),
   ("country", .str (match c.geo_data with | some g => g.country | none => "Unknown")),
   ("city", .str (match c.geo_data with | some g => g.city | none => "Unknown")),
   ("isp", .str (match c.geo_data with | some g => g.org | none => "Unknown"))]

/-- Document written by `NetworkMonitor.export_connections`
(src/monitor.py lines 182-201): one array with one object per
connection, in order. -/
def export_document (cs : List Conn) : List (List (String × JVal)) :=
  cs.map export_entry

/-- The ten fixed keys of an exported object, in source order. -/
def exportKeys : List String :=
  ["timestamp", "process", "pid", "protocol", "local_address",
   "remote_address", "status", "country", "city", "isp"]

/-- Any number of further `resolve` calls, threading the state. -/
def resolve_seq (provider : String → ProviderResult) : List String → MonState → MonState
  | [], s => s
  | ip :: rest, s => resolve_seq provider rest (get_geolocation provider s ip).2

/-- A cache binding at the head is found first, as for a Python dict
assignment. -/
theorem lookup_cons_self (ip : String) (g : GeoData) (l : List (String × GeoData)) :
    ((ip, g) :: l).lookup ip = some g := by
  simp [List.lookup]

/-- After `get_geolocation`, the returned value is what the cache now
holds for that ip: every branch of src/monitor.py lines 60-97 stores the
value it returns (the cache-hit branch returns what was stored). -/
theorem get_geolocation_cached (provider : String → ProviderResult) (s : MonState)
    (ip : String) :
    (get_geolocation provider s ip).2.geo_cache.lookup ip =
      some (get_geolocation provider s ip).1 := by
  unfold get_geolocation
  split
  · next g hg => simpa using hg
  · next hg =>
    split
    · exact lookup_cons_self ..
    · split
      · split
        · split
          · exact lookup_cons_self ..
          · exact lookup_cons_self ..
        · exact lookup_cons_self ..
      · exact lookup_cons_self ..

/-- A cache hit short-circuits: the stored value is returned and the
state is untouched. -/
theorem get_geolocation_hit (provider : String → ProviderResult) (s : MonState)
    (ip : String) (g : GeoData) (h : s.geo_cache.lookup ip = some g) :
    get_geolocation provider s ip = (g, s) := by
  unfold get_geolocation
  simp [h]

/-- One `resolve` grows the call log by at most the one ip it resolved. -/
theorem get_geolocation_calls (provider : String → ProviderResult) (s : MonState)
    (ip : String) :
    (get_geolocation provider s ip).2.calls = s.calls ∨
      (get_geolocation provider s ip).2.calls = s.calls ++ [ip] := by
  unfold get_geolocation
  split
  · exact Or.inl rfl
  · split
    · exact Or.inl rfl
    · split
      · split
        · split
          · exact Or.inr rfl
          · exact Or.inr rfl
        · exact Or.inr rfl
      · exact Or.inr rfl

/-- Claim C1: for every ip and every prior call history (any reachable
cache and call log `s`), calling `get_geolocation` twice with the same
ip leaves the provider invoked at most once more for that ip, the first
call caches the value it returns, and the second call returns exactly
that cached value while changing nothing — no network call — whether the
first call succeeded or failed. -/
theorem geolocation_cache_idempotent (provider : String → ProviderResult)
    (s : MonState) (ip : String) :
    (get_geolocation provider s ip).2.geo_cache.lookup ip =
      some (get_geolocation provider s ip).1 ∧
    get_geolocation provider (get_geolocation provider s ip).2 ip =
      ((get_geolocation provider s ip).1, (get_geolocation provider s ip).2) ∧
    (get_geolocation provider s ip).2.calls.count ip ≤ s.calls.count ip + 1 := by
  refine ⟨get_geolocation_cached provider s ip,
    get_geolocation_hit provider _ ip _ (get_geolocation_cached provider s ip), ?_⟩
  rcases get_geolocation_calls provider s ip with h | h
  · rw [h]; omega
  · rw [h]; simp [List.count_append]

/-- Once an ip is cached, any later `resolve` call (for this or any
other ip) keeps its binding and never invokes the provider for it. -/
theorem cached_stable (provider : String → ProviderResult) (s : MonState)
    (ip ip' : String) (g : GeoData) (h : s.geo_cache.lookup ip = some g) :
    (get_geolocation provider s ip').2.geo_cache.lookup ip = some g ∧
    (get_geolocation provider s ip').2.calls.count ip = s.calls.count ip := by
  by_cases he : ip = ip'
  · subst he
    rw [get_geolocation_hit provider s ip g h]
    exact ⟨h, rfl⟩
  · have hb : (ip == ip') = false := by simpa using he
    have hcount : (s.calls ++ [ip']).count ip = s.calls.count ip := by
      have hne : ¬ip' = ip := fun hc => he hc.symm
      simp [List.count_append, List.count_cons, hne]
    unfold get_geolocation
    split
    · exact ⟨h, rfl⟩
    · split
      · exact ⟨by simpa [List.lookup, hb] using h, rfl⟩
      · split
        · split
          · split
            · exact ⟨by simpa [List.lookup, hb] using h, hcount⟩
            · exact ⟨by simpa [List.lookup, hb] using h, hcount⟩
          · exact ⟨by simpa [List.lookup, hb] using h, hcount⟩
        · exact ⟨by simpa [List.lookup, hb] using h, hcount⟩

/-- The stability of `cached_stable` extended over any sequence of
further calls. -/
theorem cached_stable_seq (provider : String → ProviderResult) (ips : List String)
    (s : MonState) (ip : String) (g : GeoData) (h : s.geo_cache.lookup ip = some g) :
    (resolve_seq provider ips s).geo_cache.lookup ip = some g ∧
    (resolve_seq provider ips s).calls.count ip = s.calls.count ip := by
  induction ips generalizing s with
  | nil => exact ⟨h, rfl⟩
  | cons ip' rest ih =>
    have hs := cached_stable provider s ip ip' g h
    have := ih (get_geolocation provider s ip').2 hs.1
    exact ⟨this.1, this.2.trans hs.2⟩

/-- Claim C2, counterexample: for a fresh public ip whose lookup fails,
the value returned and cached does NOT have `org = "Unknown"` — the
source (src/monitor.py line 93) writes `"org": "Unknown ISP"`, so the
claim's "country, city, and org fields all equal Unknown" is false at
this input. -/
theorem negative_sentinel_org_counterexample :
    (get_geolocation (fun _ => ProviderResult.exn) initState "8.8.8.8").1.country
        = "Unknown" ∧
    (get_geolocation (fun _ => ProviderResult.exn) initState "8.8.8.8").1.org
        = "Unknown ISP" ∧
    ¬ (get_geolocation (fun _ => ProviderResult.exn) initState "8.8.8.8").1.org
        = "Unknown" := by
  refine ⟨by decide, by decide, by decide⟩

/-- Claim C2 as amended: for every public ip not yet cached whose
provider lookup fails in any way (non-200 status, malformed body,
timeout or transport exception), `get_geolocation` returns the Unknown
sentinel — country and city "Unknown", org "Unknown ISP", placeholder
flag — stores it in the cache under the ip, and every subsequent call
for that ip (after any interleaved calls for other ips) returns the same
sentinel without any further provider invocation for the ip. -/
theorem negative_caching (provider : String → ProviderResult) (s : MonState)
    (ip : String) (h1 : s.geo_cache.lookup ip = none)
    (h2 : is_private_ip ip = false)
    (h3 : provider_fails (provider ip) = true) :
    (get_geolocation provider s ip).1 = unknownGeo ∧
    (get_geolocation provider s ip).2.geo_cache.lookup ip = some unknownGeo ∧
    (get_geolocation provider s ip).2.calls = s.calls ++ [ip] ∧
    ∀ ips : List String,
      (get_geolocation provider
        (resolve_seq provider ips (get_geolocation provider s ip).2) ip).1 =
          unknownGeo ∧
      (get_geolocation provider
          (resolve_seq provider ips (get_geolocation provider s ip).2) ip).2.calls.count ip =
        s.calls.count ip + 1 := by
  have hfst : get_geolocation provider s ip =
      (unknownGeo, { s with
        geo_cache := (ip, unknownGeo) :: s.geo_cache,
        calls := s.calls ++ [ip] }) := by
    unfold get_geolocation
    rw [h1]
    simp only [h2, Bool.false_eq_true, if_false]
    cases hp : provider ip with
    | exn => rfl
    | response st body =>
      rw [hp] at h3
      unfold provider_fails at h3
      cases body with
      | none =>
        cases hst : st == 200 with
        | true => simp [hst]
        | false => simp [hst]
      | some d =>
        have hst : (st == 200) = false := by
          simpa [Option.isNone] using h3
        simp [hst]
  refine ⟨by rw [hfst], by rw [hfst]; exact lookup_cons_self .., by rw [hfst], ?_⟩
  intro ips
  have hcache : (get_geolocation provider s ip).2.geo_cache.lookup ip = some unknownGeo := by
    rw [hfst]; exact lookup_cons_self ..
  have hstable := cached_stable_seq provider ips (get_geolocation provider s ip).2 ip
    unknownGeo hcache
  have hhit := get_geolocation_hit provider
    (resolve_seq provider ips (get_geolocation provider s ip).2) ip unknownGeo hstable.1
  refine ⟨by rw [hhit], ?_⟩
  rw [hhit]
  rw [hstable.2, hfst]
  simp [List.count_append, List.count_cons]

/-- Witness for `negative_caching`: a 500 response on a fresh public ip,
followed by an interleaved resolve of another ip, still answers the
sentinel. -/
theorem negative_caching_witness :
    (get_geolocation (fun _ => ProviderResult.response 500 none) initState "8.8.8.8").1 =
      unknownGeo ∧
    (get_geolocation (fun _ => ProviderResult.response 500 none)
      (resolve_seq (fun _ => ProviderResult.response 500 none) ["1.1.1.1"]
        (get_geolocation (fun _ => ProviderResult.response 500 none)
          initState "8.8.8.8").2) "8.8.8.8").1 = unknownGeo :=
  ⟨(negative_caching (fun _ => ProviderResult.response 500 none) initState "8.8.8.8"
      rfl (by decide) (by decide)).1,
   ((negative_caching (fun _ => ProviderResult.response 500 none) initState "8.8.8.8"
      rfl (by decide) (by decide)).2.2.2 ["1.1.1.1"]).1⟩

/-- Cache well-formedness: every entry stored under a non-public ip is
the Local sentinel. It holds for the fresh monitor and is preserved by
every `get_geolocation` call, so it holds in every reachable state. -/
def cacheConsistent (s : MonState) : Prop :=
  ∀ ip g, is_private_ip ip = true → s.geo_cache.lookup ip = some g → g = localGeo

/-- The fresh monitor has a consistent (empty) cache. -/
theorem initState_cacheConsistent : cacheConsistent initState :=
  fun _ _ _ h => by simp [initState] at h

/-- Consistency of the cache is preserved by every resolve call. -/
theorem get_geolocation_preserves_consistent (provider : String → ProviderResult)
    (s : MonState) (ip : String) (h : cacheConsistent s) :
    cacheConsistent (get_geolocation provider s ip).2 := by
  intro ip' g' hpriv hl
  by_cases he : ip' = ip
  · subst he
    rw [get_geolocation_cached provider s ip'] at hl
    have : (get_geolocation provider s ip').1 = localGeo := by
      unfold get_geolocation
      cases hc : s.geo_cache.lookup ip' with
      | some g0 => exact h ip' g0 hpriv hc
      | none => simp [hpriv]
    rw [this] at hl
    exact (Option.some_injective _ hl).symm ▸ rfl
  · have hb : (ip' == ip) = false := by simpa using he
    rcases get_geolocation_calls provider s ip with _ | _ <;>
    · revert hl
      unfold get_geolocation
      split
      · exact fun hl => h ip' g' hpriv hl
      · split
        · intro hl
          rw [List.lookup] at hl
          rw [hb] at hl
          exact h ip' g' hpriv hl
        · split
          · split
            · split
              all_goals
                intro hl
                rw [List.lookup] at hl
                rw [hb] at hl
                exact h ip' g' hpriv hl
            · intro hl
              rw [List.lookup] at hl
              rw [hb] at hl
              exact h ip' g' hpriv hl
          · intro hl
            rw [List.lookup] at hl
            rw [hb] at hl
            exact h ip' g' hpriv hl

/-- Claim C3: for every ip the classifier marks non-public — private,
loopback, link-local or unparseable — `get_geolocation` performs no
network IO (the provider call log is unchanged), returns the fixed Local
record (country "Local", city "Local", org "Local Network"), and the
cache afterwards binds the ip to that record. The cache-consistency
hypothesis holds in every reachable state (`initState_cacheConsistent`
and `get_geolocation_preserves_consistent`). -/
theorem local_classification (provider : String → ProviderResult) (s : MonState)
    (ip : String) (hcons : cacheConsistent s) (hpriv : is_private_ip ip = true) :
    (get_geolocation provider s ip).1 = localGeo ∧
    (get_geolocation provider s ip).1.country = "Local" ∧
    (get_geolocation provider s ip).1.city = "Local" ∧
    (get_geolocation provider s ip).1.org = "Local Network" ∧
    (get_geolocation provider s ip).2.calls = s.calls ∧
    (get_geolocation provider s ip).2.geo_cache.lookup ip = some localGeo := by
  have hval : (get_geolocation provider s ip).1 = localGeo := by
    unfold get_geolocation
    cases hc : s.geo_cache.lookup ip with
    | some g0 => exact hcons ip g0 hpriv hc
    | none => simp [hpriv]
  have hcalls : (get_geolocation provider s ip).2.calls = s.calls := by
    unfold get_geolocation
    cases hc : s.geo_cache.lookup ip with
    | some g0 => rfl
    | none => simp [hpriv]
  refine ⟨hval, by rw [hval]; rfl, by rw [hval]; rfl, by rw [hval]; rfl, hcalls, ?_⟩
  have := get_geolocation_cached provider s ip
  rw [hval] at this
  exact this

/-- Witness for `local_classification`: a private IPv4 address and an
unparseable string, both on the fresh monitor, yield the Local record
with no provider call. -/
theorem local_classification_witness :
    (get_geolocation (fun _ => ProviderResult.exn) initState "192.168.1.1").1 =
      localGeo ∧
    (get_geolocation (fun _ => ProviderResult.exn) initState "definitely-not-an-ip").1 =
      localGeo ∧
    (get_geolocation (fun _ => ProviderResult.exn) initState "192.168.1.1").2.calls =
      initState.calls :=
  ⟨(local_classification (fun _ => ProviderResult.exn) initState "192.168.1.1"
      initState_cacheConsistent (by decide)).1,
   (local_classification (fun _ => ProviderResult.exn) initState "definitely-not-an-ip"
      initState_cacheConsistent (by decide)).1,
   (local_classification (fun _ => ProviderResult.exn) initState "192.168.1.1"
      initState_cacheConsistent (by decide)).2.2.2.2.1⟩

/-- Snapshot from the spec's aggregate test case: three TCP ESTABLISHED
connections to two distinct public IPs in two distinct countries, plus
two UDP connections to two more distinct public IPs in one more
country. -/
def exampleSnapshot : List Conn :=
  [{ timestamp := ⟨2025, 6, 1, 12, 0, 0⟩, process_name := "chrome", pid := .num 1234,
     protocol := "TCP", local_address := "10.0.0.5:50001",
     remote_address := "1.1.1.1:443", remote_ip := "1.1.1.1", status := "ESTABLISHED",
     geo_data := some ⟨"Australia", "Sydney", "Cloudflare", "🇦🇺"⟩ },
   { timestamp := ⟨2025, 6, 1, 12, 0, 0⟩, process_name := "chrome", pid := .num 1234,
     protocol := "TCP", local_address := "10.0.0.5:50002",
     remote_address := "8.8.8.8:443", remote_ip := "8.8.8.8", status := "ESTABLISHED",
     geo_data := some ⟨"United States", "Mountain View", "Google LLC", "🇺🇸"⟩ },
   { timestamp := ⟨2025, 6, 1, 12, 0, 0⟩, process_name := "firefox", pid := .num 5678,
     protocol := "TCP", local_address := "10.0.0.5:50003",
     remote_address := "1.1.1.1:80", remote_ip := "1.1.1.1", status := "ESTABLISHED",
     geo_data := some ⟨"Australia", "Sydney", "Cloudflare", "🇦🇺"⟩ },
   { timestamp := ⟨2025, 6, 1, 12, 0, 1⟩, process_name := "dns", pid := .num 90,
     protocol := "UDP", local_address := "10.0.0.5:50004",
     remote_address := "9.9.9.9:53", remote_ip := "9.9.9.9", status := "NONE",
     geo_data := some ⟨"Switzerland", "Zurich", "Quad9", "🇨🇭"⟩ },
   { timestamp := ⟨2025, 6, 1, 12, 0, 1⟩, process_name := "dns", pid := .num 90,
     protocol := "UDP", local_address := "10.0.0.5:50005",
     remote_address := "149.112.112.112:53", remote_ip := "149.112.112.112",
     status := "NONE",
     geo_data := some ⟨"Switzerland", "Zurich", "Quad9", "🇨🇭"⟩ }]

/-- Claim C4: `stats_of` reports the record count as total, the
per-protocol counts, the ESTABLISHED count, the number of distinct
remote IPs and the number of distinct countries among geo-carrying
records; on the spec's five-connection snapshot it reports
total=5, tcp=3, udp=2, established=3, unique_ips=4, unique_countries=3. -/
theorem connection_stats_correct (cs : List Conn) :
    (stats_of cs).total = cs.length ∧
    (stats_of cs).tcp = cs.countP (fun c => c.protocol == "TCP") ∧
    (stats_of cs).udp = cs.countP (fun c => c.protocol == "UDP") ∧
    (stats_of cs).established = cs.countP (fun c => c.status == "ESTABLISHED") ∧
    (stats_of cs).unique_ips = (cs.map (fun c => c.remote_ip)).toFinset.card ∧
    (stats_of cs).unique_countries =
      ((cs.filterMap (fun c => c.geo_data)).map (fun g => g.country)).toFinset.card ∧
    stats_of exampleSnapshot =
      { total := 5, tcp := 3, udp := 2, established := 3,
        unique_ips := 4, unique_countries := 3 } := by
  refine ⟨rfl, ?_, ?_, ?_, ?_, ?_, by decide⟩
  · exact (List.countP_eq_length_filter _ _).symm
  · exact (List.countP_eq_length_filter _ _).symm
  · exact (List.countP_eq_length_filter _ _).symm
  · exact (List.card_toFinset _).symm
  · exact (List.card_toFinset _).symm

/-- A zero-padded decimal digit is a digit character. -/
theorem digitChar_mod_isDigit (m : Nat) : (Nat.digitChar (m % 10)).isDigit = true := by
  have h : m % 10 < 10 := Nat.mod_lt _ (by norm_num)
  have hall : ∀ k < 10, (Nat.digitChar k).isDigit = true := by decide
  exact hall _ h

/-- Claim C5: the exported document has exactly one entry per record,
every entry carries the ten fixed keys in order, records without geo
data export country, city and isp as "Unknown", and with no path given
the chosen filename is `connections_` followed by eight date digits, an
underscore, six time digits and `.json`. -/
theorem export_roundtrip (cs : List Conn) (t : DateTime) :
    (export_document cs).length = cs.length ∧
    (∀ e, e ∈ export_document cs → e.map Prod.fst = exportKeys) ∧
    (∀ c, c ∈ cs → c.geo_data = none →
      ("country", JVal.str "Unknown") ∈ export_entry c ∧
      ("city", JVal.str "Unknown") ∈ export_entry c ∧
      ("isp", JVal.str "Unknown") ∈ export_entry c) ∧
    (export_filename none t).toList =
      "connections_".toList ++
        ((pad4 t.year ++ pad2 t.month ++ pad2 t.day).toList ++
          ('_' :: ((pad2 t.hour ++ pad2 t.minute ++ pad2 t.second).toList ++
            ".json".toList))) ∧
    (pad4 t.year ++ pad2 t.month ++ pad2 t.day).length = 8 ∧
    (pad4 t.year ++ pad2 t.month ++ pad2 t.day).toList.all Char.isDigit = true ∧
    (pad2 t.hour ++ pad2 t.minute ++ pad2 t.second).length = 6 ∧
    (pad2 t.hour ++ pad2 t.minute ++ pad2 t.second).toList.all Char.isDigit = true := by
  refine ⟨by simp [export_document], ?_, ?_, ?_, ?_, ?_, ?_, ?_⟩
  · intro e he
    obtain ⟨c, _, rfl⟩ := List.mem_map.1 he
    rfl
  · intro c _ hg
    refine ⟨?_, ?_, ?_⟩ <;> simp [export_entry, hg]
  · show (default_filename t).toList = _
    simp only [default_filename, String.toList, String.data_append]
    rfl
  · rfl
  · simp only [String.toList, String.data_append]
    simp [pad4, pad2, digitChar_mod_isDigit]
  · rfl
  · simp only [String.toList, String.data_append]
    simp [pad2, digitChar_mod_isDigit]

/-- A record captured without geo data, for the export witness. -/
def noGeoConn : Conn :=
  { timestamp := ⟨2025, 6, 1, 12, 34, 56⟩
    process_name := "sshd"
    pid := .na
    protocol := "TCP"
    local_address := "10.0.0.5:22"
    remote_address := "203.0.114.9:50000"
    remote_ip := "203.0.114.9"
    status := "ESTABLISHED"
    geo_data := none }

/-- Witness for `export_roundtrip`: a one-record snapshot without geo
data exports one entry, with the isp field defaulted to Unknown. -/
theorem export_roundtrip_witness :
    (export_document [noGeoConn]).length = 1 ∧
    ("isp", JVal.str "Unknown") ∈ export_entry noGeoConn :=
  ⟨(export_roundtrip [noGeoConn] ⟨2025, 6, 1, 12, 34, 56⟩).1,
   ((export_roundtrip [noGeoConn] ⟨2025, 6, 1, 12, 34, 56⟩).2.2.1
      noGeoConn (by simp) rfl).2.2⟩

/-- Claim C6: `start_monitoring` while already Running is a no-op — the
state is unchanged and no second thread is spawned, so two starts in a
row equal one start; from a quiescent Stopped state one start leaves
exactly one active periodic task, and stop followed by start leaves a
single active task that is a fresh thread, not the old one. -/
theorem start_monitoring_idempotent (s : MonState) :
    start_monitoring (start_monitoring s) = start_monitoring s ∧
    (s.monitoring = true → start_monitoring s = s) ∧
    (s.monitoring = false → s.active = [] →
      (start_monitoring s).active.length = 1 ∧
      (start_monitoring (stop_monitoring (start_monitoring s))).active.length = 1 ∧
      (start_monitoring (stop_monitoring (start_monitoring s))).monitor_thread ≠
        (start_monitoring s).monitor_thread) := by
  refine ⟨?_, ?_, ?_⟩
  · by_cases h : s.monitoring
    · simp [start_monitoring, h]
    · simp [start_monitoring, h]
  · intro h
    simp [start_monitoring, h]
  · intro h2 h3
    refine ⟨by simp [start_monitoring, h2, h3], ?_, ?_⟩
    · simp [start_monitoring, stop_monitoring, h2, h3]
    · simp [start_monitoring, stop_monitoring, h2, h3]

/-- Witness for `start_monitoring_idempotent` on the fresh monitor. -/
theorem start_monitoring_idempotent_witness :
    start_monitoring (start_monitoring initState) = start_monitoring initState ∧
    (start_monitoring initState).active.length = 1 ∧
    (start_monitoring (stop_monitoring (start_monitoring initState))).active.length = 1 :=
  ⟨(start_monitoring_idempotent initState).1,
   ((start_monitoring_idempotent initState).2.2 rfl rfl).1,
   ((start_monitoring_idempotent initState).2.2 rfl rfl).2.1⟩

/-- Claim C7: when the OS denies connection enumeration, the snapshot is
the empty list, the access-denied diagnostic is surfaced, the
`monitoring` flag is untouched, and the monitoring loop treats the cycle
as "no data": with the denial persisting, a running loop completes every
one of its `n` observed cycles, each delivering an empty snapshot,
instead of stopping. -/
theorem permission_denied_nonfatal (env : MonEnv) (s : MonState) (n : Nat)
    (h1 : env.net_connections = .accessDenied) (h2 : s.monitoring = true) :
    (get_active_connections env s).1 = [] ∧
    (get_active_connections env s).2.warnings =
      s.warnings ++ ["Access denied. Run as administrator for full functionality."] ∧
    (get_active_connections env s).2.monitoring = true ∧
    (monitor_loop env n s).1 = List.replicate n [] := by
  refine ⟨by simp [get_active_connections, h1], by simp [get_active_connections, h1],
    by simp [get_active_connections, h1, h2], ?_⟩
  induction n generalizing s with
  | zero => rfl
  | succ k ih =>
    have hmon : (get_active_connections env s).2.monitoring = true := by
      simp [get_active_connections, h1, h2]
    simp only [monitor_loop, h2, if_true]
    rw [ih _ hmon]
    simp [get_active_connections, h1, List.replicate_succ]

/-- Environment in which enumeration is denied. -/
def deniedEnv : MonEnv :=
  { net_connections := .accessDenied
    provider := fun _ => .exn
    proc_lookup := fun _ => .accessDenied
    now := ⟨2025, 6, 1, 12, 0, 0⟩ }

/-- Witness for `permission_denied_nonfatal`: a running monitor denied
enumeration still completes three cycles, each delivering nothing. -/
theorem permission_denied_nonfatal_witness :
    (get_active_connections deniedEnv { initState with monitoring := true }).1 = [] ∧
    (monitor_loop deniedEnv 3 { initState with monitoring := true }).1 =
      [[], [], []] :=
  ⟨(permission_denied_nonfatal deniedEnv { initState with monitoring := true } 3
      rfl rfl).1,
   (permission_denied_nonfatal deniedEnv { initState with monitoring := true } 3
      rfl rfl).2.2.2⟩

/-- Claim C8, counterexample: for the present pid 0 — not absent, not
null — whose OS lookup fails (the oracle denies access to every pid),
the code returns "System", not "Unknown": Python's `if not pid` treats
the integer 0 as falsy, so the claim's "returns Unknown for every pid
whose OS process lookup fails" is false at pid 0. -/
theorem process_name_zero_pid_counterexample :
    get_process_name (fun _ => PsResult.accessDenied) (some 0) = "System" ∧
    ¬ get_process_name (fun _ => PsResult.accessDenied) (some 0) = "Unknown" := by
  refine ⟨rfl, by decide⟩

/-- Claim C8 as amended: `_get_process_name` returns "System" for an
absent/null pid and also for pid 0 (falsy in Python); for every nonzero
pid it returns "Unknown" when the OS lookup fails with NoSuchProcess or
AccessDenied, and the OS-reported name otherwise. -/
theorem process_name_resolution (lookup : Nat → PsResult) (pid : Option Nat) :
    (pid = none → get_process_name lookup pid = "System") ∧
    (pid = some 0 → get_process_name lookup pid = "System") ∧
    (∀ p, pid = some p → p ≠ 0 →
      (lookup p = .noSuchProcess ∨ lookup p = .accessDenied) →
      get_process_name lookup pid = "Unknown") ∧
    (∀ p name, pid = some p → p ≠ 0 → lookup p = .ok name →
      get_process_name lookup pid = name) := by
  refine ⟨?_, ?_, ?_, ?_⟩
  · intro h; subst h; rfl
  · intro h; subst h; rfl
  · intro p h hp hl
    subst h
    have hz : (p == 0) = false := by simpa using hp
    rcases hl with hl | hl <;> simp [get_process_name, hz, hl]
  · intro p name h hp hl
    subst h
    have hz : (p == 0) = false := by simpa using hp
    simp [get_process_name, hz, hl]

/-- Witness for `process_name_resolution`: the three behaviours at
concrete pids. -/
theorem process_name_resolution_witness :
    get_process_name (fun _ => PsResult.accessDenied) none = "System" ∧
    get_process_name (fun _ => PsResult.accessDenied) (some 7) = "Unknown" ∧
    get_process_name (fun _ => PsResult.ok "chrome") (some 7) = "chrome" :=
  ⟨(process_name_resolution (fun _ => PsResult.accessDenied) none).1 rfl,
   (process_name_resolution (fun _ => PsResult.accessDenied) (some 7)).2.2.1 7 rfl
      (by decide) (Or.inr rfl),
   (process_name_resolution (fun _ => PsResult.ok "chrome") (some 7)).2.2.2 7 "chrome"
      rfl (by decide) rfl⟩

/-- Every connection built by the enumeration loop came from a raw
socket with a present remote endpoint whose ip survived the private
filter, and was enriched before being appended. -/
theorem build_connections_sound (env : MonEnv) (l : List ConnInfo) (s : MonState)
    (c : Conn) (h : c ∈ (build_connections env l s).1) :
    ∃ a : Addr, c.remote_ip = a.ip ∧
      c.remote_address = a.ip ++ ":" ++ toString a.port ∧
      is_private_ip a.ip = false ∧ c.geo_data ≠ none := by
  induction l generalizing s with
  | nil => simp [build_connections] at h
  | cons ci rest ih =>
    rw [build_connections] at h
    cases hr : ci.raddr with
    | none =>
      rw [hr] at h
      exact ih _ h
    | some a =>
      simp only [hr] at h
      by_cases hp : is_private_ip a.ip
      · rw [if_pos hp] at h
        exact ih _ h
      · rw [if_neg hp] at h
        rcases List.mem_cons.1 h with hc | hc
        · subst hc
          refine ⟨a, ?_, ?_, by simpa using hp, by simp⟩
          · simp [mkConnection, hr]
          · simp [mkConnection, hr, format_address]
        · exact ih _ hc

/-- Claim C9: every connection yielded by `get_active_connections` has a
non-empty remote endpoint — both the formatted remote address and the
remote ip are non-empty strings, so a raw socket lacking a remote
endpoint never appears in the returned sequence. -/
theorem snapshot_remote_nonempty (env : MonEnv) (s : MonState) (c : Conn)
    (h : c ∈ (get_active_connections env s).1) :
    c.remote_address ≠ "" ∧ c.remote_ip ≠ "" := by
  have hsound : ∃ a : Addr, c.remote_ip = a.ip ∧
      c.remote_address = a.ip ++ ":" ++ toString a.port ∧
      is_private_ip a.ip = false ∧ c.geo_data ≠ none := by
    cases he : env.net_connections with
    | ok l =>
      apply build_connections_sound env l s c
      rw [get_active_connections, he] at h
      exact h
    | accessDenied => rw [get_active_connections, he] at h; simp at h
    | otherError msg => rw [get_active_connections, he] at h; simp at h
  obtain ⟨a, hip, haddr, hpub, -⟩ := hsound
  have hipne : a.ip ≠ "" := by
    intro hnil
    rw [hnil] at hpub
    exact absurd hpub (by decide)
  constructor
  · rw [haddr]
    intro hcontr
    have hlen := congrArg String.length hcontr
    rw [String.length_append, String.length_append] at hlen
    have h1 : String.length ":" = 1 := rfl
    have h0 : String.length "" = 0 := rfl
    omega
  · rw [hip]; exact hipne

/-- Claim C10: every connection yielded by `get_active_connections` has
a remote ip the classifier marks public and a populated `geo_data`
field, so "Local" peers are filtered out before statistics and export
ever see them. -/
theorem snapshot_public_enriched (env : MonEnv) (s : MonState) (c : Conn)
    (h : c ∈ (get_active_connections env s).1) :
    is_private_ip c.remote_ip = false ∧ c.geo_data ≠ none := by
  have hsound : ∃ a : Addr, c.remote_ip = a.ip ∧
      c.remote_address = a.ip ++ ":" ++ toString a.port ∧
      is_private_ip a.ip = false ∧ c.geo_data ≠ none := by
    cases he : env.net_connections with
    | ok l =>
      apply build_connections_sound env l s c
      rw [get_active_connections, he] at h
      exact h
    | accessDenied => rw [get_active_connections, he] at h; simp at h
    | otherError msg => rw [get_active_connections, he] at h; simp at h
  obtain ⟨a, hip, -, hpub, hgeo⟩ := hsound
  exact ⟨hip ▸ hpub, hgeo⟩

/-- Environment with one raw socket: a TCP connection to a public
address, plus a listening socket with no peer and a LAN peer that are
both expected to be filtered out. -/
def sampleEnv : MonEnv :=
  { net_connections := .ok
      [{ pid := some 42, type := .sockStream, laddr := some ⟨"0.0.0.0", 22⟩,
         raddr := none, status := some "LISTEN" },
       { pid := some 42, type := .sockStream, laddr := some ⟨"10.0.0.5", 50000⟩,
         raddr := some ⟨"192.168.1.20", 445⟩, status := some "ESTABLISHED" },
       { pid := some 42, type := .sockStream, laddr := some ⟨"10.0.0.5", 50001⟩,
         raddr := some ⟨"8.8.8.8", 443⟩, status := some "ESTABLISHED" }]
    provider := fun _ => .response 200
      (some ⟨some "United States", some "Mountain View", some "Google LLC", some "US"⟩)
    proc_lookup := fun _ => .ok "chrome"
    now := ⟨2025, 6, 1, 12, 0, 0⟩ }

/-- Witness for `snapshot_remote_nonempty`: the one surviving connection
of `sampleEnv` has non-empty remote endpoint fields. -/
theorem snapshot_remote_nonempty_witness :
    ((get_active_connections sampleEnv initState).1.headD noGeoConn).remote_address ≠ "" ∧
    ((get_active_connections sampleEnv initState).1.headD noGeoConn).remote_ip ≠ "" :=
  snapshot_remote_nonempty sampleEnv initState
    ((get_active_connections sampleEnv initState).1.headD noGeoConn) (by decide)

/-- Witness for `snapshot_public_enriched`: the one surviving connection
of `sampleEnv` has a public remote ip and attached geo data. -/
theorem snapshot_public_enriched_witness :
    is_private_ip ((get_active_connections sampleEnv initState).1.headD noGeoConn).remote_ip
        = false ∧
    ((get_active_connections sampleEnv initState).1.headD noGeoConn).geo_data ≠ none :=
  snapshot_public_enriched sampleEnv initState
    ((get_active_connections sampleEnv initState).1.headD noGeoConn) (by decide)
